import Mathlib

/-!
Verification development for the delivery-marketplace backend
(Express + Mongoose). JavaScript numbers are modelled as exact
rationals (ℚ); `Math.round` is the JS half-up rounding
`x ↦ ⌊x + 1/2⌋` and `Math.floor` is `Int.floor`. Monetary rounding
`Math.round(x * 100) / 100` is `round2`. Document identifiers are
modelled as naturals, dates as natural timestamps. Route handlers
are pure functions from the documents they read to the documents
they write plus an HTTP status code.
-/

namespace Delivery

/-- JS `Math.round`: rounds half toward positive infinity. -/
def jsRound (q : ℚ) : ℤ := ⌊q + 1/2⌋

/-- JS `Math.round(x * 100) / 100`: round to 2 decimal places. -/
def round2 (q : ℚ) : ℚ := ((jsRound (q * 100) : ℤ) : ℚ) / 100

/-- JS numeric truthiness of an optional numeric field:
`undefined`/`null` and `0` are falsy, every other number truthy. -/
def truthyInt : Option ℤ → Bool
  | none => false
  | some k => k != 0

/-- `Order.status` enum from `models/Order.js`. -/
inductive OrderStatus
  | pending
  | confirmed
  | preparing
  | ready
  | on_way
  | delivered
  | cancelled
  | refunded
deriving DecidableEq

/-- `User.role` enum from `models/User.js`. -/
inductive Role
  | client
  | store_owner
  | admin
  | delivery_driver
deriving DecidableEq

/-- One entry of `options[].choices` in `models/Product.js`. -/
structure Choice where
  cname : String
  price : ℚ
deriving DecidableEq

/-- One entry of `options` in `models/Product.js`. -/
structure ProdOption where
  oname : String
  choices : List Choice
deriving DecidableEq

/-- The fields of a `Product` document read or written by the order
and cart routes. `finalPrice` is the discount virtual of
`models/Product.js` (a time-dependent function of `price` and
`discount`); the handlers under verification only read its value, so
it is carried as a field. `stock = none` models the schema default
`null` (unlimited stock). -/
structure Product where
  pid : ℕ
  storeId : ℕ
  pname : String
  price : ℚ
  finalPrice : ℚ
  isAvailable : Bool
  stock : Option ℤ
  totalOrders : ℤ
  options : List ProdOption
deriving DecidableEq

/-- `Product.isInStock(quantity)` from `models/Product.js`:
`if (this.stock === null) return this.isAvailable;
 return this.isAvailable && this.stock >= quantity`. -/
def Product.isInStock (p : Product) (quantity : ℕ) : Bool :=
  match p.stock with
  | none => p.isAvailable
  | some s => p.isAvailable && decide ((quantity : ℤ) ≤ s)

/-- One entry of a request item's `options` array in the
POST /api/orders body: `{ name, choice }`. -/
structure ReqOptionSel where
  selName : String
  selChoice : String
deriving DecidableEq

/-- One entry of the `items` array in the POST /api/orders body. -/
structure ReqItem where
  productId : ℕ
  quantity : ℕ
  options : List ReqOptionSel
deriving DecidableEq

/-- An embedded order item (`orderItemSchema` in `models/Order.js`)
as pushed by the POST /api/orders handler. -/
structure OrderItem where
  product : ℕ
  iname : String
  price : ℚ
  quantity : ℕ
  options : List ReqOptionSel
deriving DecidableEq

/-- `Order.pricing` from `models/Order.js`. -/
structure Pricing where
  subtotal : ℚ
  deliveryFee : ℚ
  serviceFee : ℚ
  tax : ℚ
  discount : ℚ
  total : ℚ
deriving DecidableEq

/-- The coupon type tags used by the hardcoded coupon table inside
the POST /api/orders handler (`routes/orders.js`). -/
inductive CoupType
  | percentage
  | fixed
deriving DecidableEq

/-- `Order.coupon` from `models/Order.js`. -/
structure OrderCoupon where
  code : String
  ctype : CoupType
  discount : ℚ
deriving DecidableEq

/-- `Order.rating` from `models/Order.js` (all fields optional until
the order is rated; numeric fields carry mongoose `min`/`max`). -/
structure OrderRating where
  food : Option ℤ
  delivery : Option ℤ
  overall : Option ℤ
  comment : Option String
  ratedAt : Option ℕ
deriving DecidableEq

/-- `Order.timing` timestamps written by `updateStatus`. -/
structure Timing where
  estimatedPreparation : ℤ
  estimatedDelivery : ℤ
  confirmedAt : Option ℕ
  preparedAt : Option ℕ
  pickedUpAt : Option ℕ
  deliveredAt : Option ℕ
deriving DecidableEq

/-- `Order.paymentInfo.status` enum. -/
inductive PayStatus
  | pend
  | paid
  | failed
  | refunded
deriving DecidableEq

/-- `Order.paymentInfo.method` enum. -/
inductive PayMethod
  | cash
  | card
  | digital_wallet
deriving DecidableEq

/-- The fields of an `Order` document read or written by the order
routes. -/
structure OrderDoc where
  customer : ℕ
  storeId : ℕ
  items : List OrderItem
  status : OrderStatus
  paymentMethod : PayMethod
  paymentStatus : PayStatus
  pricing : Pricing
  coupon : Option OrderCoupon
  timing : Timing
  rating : OrderRating
  cancellationReason : Option String
  loyaltyPointsEarned : ℤ
deriving DecidableEq

/-- The fields of a `Store` document read or written by the order
routes (`models/Store.js`): activity flag, owner, delivery info,
rating aggregate and sales counters. -/
structure Store where
  owner : ℕ
  isActive : Bool
  deliveryRadius : ℚ
  deliveryFee : ℚ
  ratingAverage : ℚ
  ratingCount : ℕ
  totalOrders : ℤ
  totalRevenue : ℚ
deriving DecidableEq

/-- `Store.updateRating(newRating)` from `models/Store.js`:
`totalRating = average * count + newRating; count += 1;
average = totalRating / count`. -/
def Store.updateRating (s : Store) (newRating : ℚ) : Store :=
  let totalRating := s.ratingAverage * s.ratingCount + newRating
  { s with ratingCount := s.ratingCount + 1,
           ratingAverage := totalRating / (s.ratingCount + 1) }

/-- One entry of `Coupon.usedBy` from `models/Coupon.js`. -/
structure UsedByEntry where
  user : ℕ
  order : ℕ
  usedAt : ℕ
  discountApplied : ℚ
deriving DecidableEq

/-- `Coupon.discountType` enum from `models/Coupon.js`. -/
inductive DiscountType
  | percentage
  | fixed
  | freeDelivery
deriving DecidableEq

/-- The fields of a `Coupon` document used by `calculateDiscount`
and `useCoupon` (`models/Coupon.js`). `maxDiscountAmount = none`
models the schema default `null`. -/
structure CouponDoc where
  cid : ℕ
  code : String
  discountType : DiscountType
  discountValue : ℚ
  maxDiscountAmount : Option ℚ
  usageCount : ℕ
  usedBy : List UsedByEntry
deriving DecidableEq

/-- `Coupon.calculateDiscount(orderAmount, deliveryFee)` from
`models/Coupon.js`. The percentage cap guard is the JS truthiness
test `this.maxDiscountAmount && discount > this.maxDiscountAmount`,
so a `null` or `0` cap applies no cap. The result is rounded half-up
to 2 decimals: `Math.round(discount * 100) / 100`. -/
def CouponDoc.calculateDiscount (c : CouponDoc) (orderAmount : ℚ)
    (deliveryFee : ℚ) : ℚ :=
  let d : ℚ :=
    match c.discountType with
    | .percentage =>
      let d0 := orderAmount * c.discountValue / 100
      match c.maxDiscountAmount with
      | none => d0
      | some m => if m ≠ 0 ∧ m < d0 then m else d0
    | .fixed => min c.discountValue orderAmount
    | .freeDelivery => deliveryFee
  round2 d

/-- `Coupon.useCoupon(userId, orderId, discountApplied)` from
`models/Coupon.js`: increments `usageCount` and appends a `usedBy`
entry. -/
def CouponDoc.useCoupon (c : CouponDoc) (userId orderId : ℕ)
    (now : ℕ) (discountApplied : ℚ) : CouponDoc :=
  { c with usageCount := c.usageCount + 1,
           usedBy := c.usedBy ++
             [{ user := userId, order := orderId, usedAt := now,
                discountApplied := discountApplied }] }

/-- `Product.findById` over the product collection. -/
def findProduct (db : List Product) (pid : ℕ) : Option Product :=
  db.find? (fun p => p.pid == pid)

/-- The options-price loop of the POST /api/orders handler: for each
requested option, find the product option by name, then the choice
by name, and accumulate `choice.price` when both match. -/
def optionsPrice (p : Product) (sels : List ReqOptionSel) : ℚ :=
  sels.foldl
    (fun acc sel =>
      match p.options.find? (fun o => o.oname == sel.selName) with
      | none => acc
      | some po =>
        match po.choices.find? (fun c => c.cname == sel.selChoice) with
        | none => acc
        | some ch => acc + ch.price)
    0

/-- The error responses the order routes produce (HTTP status plus
which message). -/
inductive ErrResp
  | validationError
  | storeNotFound
  | noDelivery
  | productNotAvailable
  | insufficientStock
deriving DecidableEq

/-- The per-item verification-and-pricing loop of the POST
/api/orders handler: resolve each product, reject unavailable /
wrong-store / out-of-stock items, and accumulate
`(finalPrice + optionsPrice) * quantity` into the subtotal while
pushing the order item. Addition order differs from the JS
left-to-right accumulation only up to commutativity of ℚ. -/
def processItems (db : List Product) (sid : ℕ) :
    List ReqItem → Except ErrResp (ℚ × List OrderItem)
  | [] => .ok (0, [])
  | it :: rest =>
    match findProduct db it.productId with
    | none => .error .productNotAvailable
    | some p =>
      if p.isAvailable = false ∨ p.storeId ≠ sid then
        .error .productNotAvailable
      else if p.isInStock it.quantity = false then
        .error .insufficientStock
      else
        match processItems db sid rest with
        | .error e => .error e
        | .ok (s, os) =>
          .ok ((p.finalPrice + optionsPrice p it.options) * it.quantity + s,
               { product := p.pid, iname := p.pname, price := p.finalPrice,
                 quantity := it.quantity, options := it.options } :: os)

/-- Service fee of the POST /api/orders handler:
`subtotal * 0.05`. -/
def orderServiceFee (subtotal : ℚ) : ℚ := subtotal * (5/100)

/-- Tax of the POST /api/orders handler: `subtotal * 0.1`. -/
def orderTax (subtotal : ℚ) : ℚ := subtotal * (1/10)

/-- The hardcoded coupon table inside the POST /api/orders handler
(`validCoupons` in `routes/orders.js`); the handler does not consult
the `Coupon` collection. -/
def validCoupons (code : String) : Option (CoupType × ℚ) :=
  if code = "FIRST10" then some (.percentage, 10)
  else if code = "SAVE5" then some (.fixed, 5)
  else if code = "WELCOME20" then some (.percentage, 20)
  else none

/-- The coupon block of the POST /api/orders handler: uppercase the
code, look it up in the hardcoded table, and derive the discount
(`subtotal * value/100` for percentage, `value` for fixed). -/
def orderApplyCoupon (couponCode : Option String) (subtotal : ℚ) :
    ℚ × Option OrderCoupon :=
  match couponCode with
  | none => (0, none)
  | some cc =>
    let code := cc.toUpper
    match validCoupons code with
    | none => (0, none)
    | some (t, v) =>
      let discount : ℚ :=
        match t with
        | .percentage => subtotal * (v / 100)
        | .fixed => v
      (discount, some { code := code, ctype := t, discount := v })

/-- Effect on one `Product` document of the
`$inc { stock: -quantity, totalOrders: quantity }` update the POST
/api/orders handler issues for a request item. MongoDB `$inc`
rejects a `null` field, so the model tracks numeric stocks and
leaves a `null` stock unchanged. -/
def decItem (it : ReqItem) (p : Product) : Product :=
  if p.pid = it.productId then
    { p with stock := p.stock.map (fun s => s - (it.quantity : ℤ)),
             totalOrders := p.totalOrders + (it.quantity : ℤ) }
  else p

/-- The per-item stock decrement of the POST /api/orders handler
over the product collection
(`Product.findByIdAndUpdate(item.productId, ...)`). -/
def decStockStep (db : List Product) (it : ReqItem) : List Product :=
  db.map (decItem it)

/-- The database state the order routes touch: the product
collection, the coupon collection, the target store, and the
ordering user's loyalty points. -/
structure World where
  products : List Product
  coupons : List CouponDoc
  store : Option Store
  userLoyaltyPoints : ℤ
deriving DecidableEq

/-- The POST /api/orders request body (fields the handler uses).
The delivery address enters the handler only through
`store.distanceFrom(deliveryAddress.coordinates)`; that Haversine
distance is passed as the separate `dist` argument of
`createOrder`. -/
structure OrderReq where
  storeId : ℕ
  items : List ReqItem
  paymentMethod : PayMethod
  couponCode : Option String
deriving DecidableEq

/-- The express-validator checks of POST /api/orders that bear on
the model: `items` is a non-empty array and every quantity is an
integer ≥ 1. (This handler does call `validationResult`.) -/
def validOrderReq (req : OrderReq) : Bool :=
  !req.items.isEmpty && req.items.all (fun it => 1 ≤ it.quantity)

/-- The POST /api/orders handler (`routes/orders.js`): validation,
store lookup and activity check, delivery-radius check, per-item
pricing, fees, hardcoded coupon, clamped total, order creation with
status `pending`, stock decrement, store counters, and loyalty
points `Math.floor(total / 10)`. `dist` is the Haversine distance
`store.distanceFrom(deliveryAddress.coordinates)` in km. -/
def createOrder (w : World) (userId : ℕ) (req : OrderReq) (dist : ℚ) :
    Except ErrResp (OrderDoc × World) :=
  if validOrderReq req = false then .error .validationError
  else
    match w.store with
    | none => .error .storeNotFound
    | some store =>
      if store.isActive = false then .error .storeNotFound
      else if ¬ dist ≤ store.deliveryRadius then .error .noDelivery
      else
        match processItems w.products req.storeId req.items with
        | .error e => .error e
        | .ok (subtotal, orderItems) =>
          let deliveryFee := store.deliveryFee
          let serviceFee := orderServiceFee subtotal
          let tax := orderTax subtotal
          let discount := (orderApplyCoupon req.couponCode subtotal).1
          let coupon := (orderApplyCoupon req.couponCode subtotal).2
          let total := max 0 (subtotal + deliveryFee + serviceFee + tax - discount)
          let estimatedDelivery := jsRound (20 + dist * 3)
          let order : OrderDoc :=
            { customer := userId,
              storeId := req.storeId,
              items := orderItems,
              status := .pending,
              paymentMethod := req.paymentMethod,
              paymentStatus := if req.paymentMethod = .cash then .pend else .paid,
              pricing :=
                { subtotal := subtotal, deliveryFee := deliveryFee,
                  serviceFee := serviceFee, tax := tax,
                  discount := discount, total := total },
              coupon := coupon,
              timing :=
                { estimatedPreparation := 20,
                  estimatedDelivery := estimatedDelivery,
                  confirmedAt := none, preparedAt := none,
                  pickedUpAt := none, deliveredAt := none },
              rating :=
                { food := none, delivery := none, overall := none,
                  comment := none, ratedAt := none },
              cancellationReason := none,
              loyaltyPointsEarned := 0 }
          let products' := req.items.foldl decStockStep w.products
          let store' :=
            { store with totalOrders := store.totalOrders + 1,
                         totalRevenue := store.totalRevenue + total }
          let loyaltyPoints := ⌊total / 10⌋
          .ok (order,
               { products := products',
                 coupons := w.coupons,
                 store := some store',
                 userLoyaltyPoints := w.userLoyaltyPoints + loyaltyPoints })

/-- `Order.calculateLoyaltyPoints()` from `models/Order.js`:
`Math.floor(this.pricing.total / 10)`. -/
def OrderDoc.calculateLoyaltyPoints (o : OrderDoc) : ℤ :=
  ⌊o.pricing.total / 10⌋

/-- `Order.canBeCancelled()` from `models/Order.js`:
`["pending", "confirmed"].includes(this.status)`. -/
def OrderDoc.canBeCancelled (o : OrderDoc) : Bool :=
  o.status == .pending || o.status == .confirmed

/-- `Order.canBeRated()` from `models/Order.js`:
`this.status === "delivered" && !this.rating.overall`
(JS truthiness on the optional numeric `overall`). -/
def OrderDoc.canBeRated (o : OrderDoc) : Bool :=
  o.status == .delivered && !(truthyInt o.rating.overall)

/-- `Order.updateStatus(newStatus)` from `models/Order.js`: assigns
the new status unconditionally, then stamps the matching timing
field (and loyalty points on `delivered`), then saves. No transition
check of any kind is performed. -/
def OrderDoc.updateStatus (o : OrderDoc) (now : ℕ)
    (newStatus : OrderStatus) : OrderDoc :=
  let o1 := { o with status := newStatus }
  match newStatus with
  | .confirmed => { o1 with timing := { o1.timing with confirmedAt := some now } }
  | .ready => { o1 with timing := { o1.timing with preparedAt := some now } }
  | .on_way => { o1 with timing := { o1.timing with pickedUpAt := some now } }
  | .delivered =>
    { o1 with timing := { o1.timing with deliveredAt := some now },
              loyaltyPointsEarned := o1.calculateLoyaltyPoints }
  | _ => o1

/-- The PUT /api/orders/:id/status handler (`routes/orders.js`),
acting on a found order. Although the route declares an
express-validator `isIn` chain, the handler never calls
`validationResult`, so the chain has no effect: any status string
reaches `order.updateStatus`; strings outside the schema enum are
rejected by mongoose at `save()` (a 500), which the `OrderStatus`
input type factors out. `storeOwner` is `order.store.owner` of the
populated order. Returns the HTTP status and the resulting order. -/
def updateStatusHandler (o : OrderDoc) (storeOwner : ℕ) (userId : ℕ)
    (role : Role) (newStatus : OrderStatus) (now : ℕ) : ℕ × OrderDoc :=
  if role ≠ .admin ∧ storeOwner ≠ userId ∧ role ≠ .delivery_driver then
    (403, o)
  else
    (200, o.updateStatus now newStatus)

/-- Position of a status in the linear chain
pending → confirmed → preparing → ready → on_way → delivered;
`cancelled`/`refunded` are the side exits, not on the chain. -/
def isImmediateSuccessor : OrderStatus → OrderStatus → Bool
  | .pending, .confirmed => true
  | .confirmed, .preparing => true
  | .preparing, .ready => true
  | .ready, .on_way => true
  | .on_way, .delivered => true
  | _, _ => false

/-- The transition discipline asserted by the spec: each accepted
update is the immediate successor on the chain or a side exit. -/
def specChainStep (old new : OrderStatus) : Prop :=
  new = .cancelled ∨ new = .refunded ∨ isImmediateSuccessor old new = true

instance (old new : OrderStatus) : Decidable (specChainStep old new) := by
  unfold specChainStep; infer_instance

/-- Effect on one `Product` document of the
`$inc { stock: item.quantity }` update the cancel handler issues per
order item (stock restore). As with `decItem`, a `null` stock is
left unchanged. -/
def incItem (oi : OrderItem) (p : Product) : Product :=
  if p.pid = oi.product then
    { p with stock := p.stock.map (fun s => s + (oi.quantity : ℤ)) }
  else p

/-- The per-item stock restore of the cancel handler over the
product collection. -/
def incStockStep (db : List Product) (oi : OrderItem) : List Product :=
  db.map (incItem oi)

/-- Outcome of the PUT /api/orders/:id/cancel handler: HTTP status,
the order document, and the product collection. On a non-200 path
both are returned unchanged. -/
structure CancelResult where
  code : ℕ
  order : OrderDoc
  products : List Product
deriving DecidableEq

/-- The PUT /api/orders/:id/cancel handler (`routes/orders.js`),
acting on a found order: authorization (customer or admin), the
`canBeCancelled` guard (400), then `status := cancelled`, the
cancellation reason, save, and the per-item stock restore. -/
def cancelOrder (o : OrderDoc) (db : List Product) (userId : ℕ)
    (role : Role) (reason : Option String) : CancelResult :=
  if o.customer ≠ userId ∧ role ≠ .admin then
    { code := 403, order := o, products := db }
  else if o.canBeCancelled = false then
    { code := 400, order := o, products := db }
  else
    let o' := { o with status := OrderStatus.cancelled,
                       cancellationReason := reason }
    { code := 200, order := o', products := o.items.foldl incStockStep db }

/-- Outcome of the POST /api/orders/:id/rate handler: HTTP status,
the order document, and the store document. On a non-200 path both
are returned unchanged. -/
structure RateResult where
  code : ℕ
  order : OrderDoc
  store : Store
deriving DecidableEq

/-- The POST /api/orders/:id/rate handler (`routes/orders.js`),
acting on a found order and its populated store: ownership check
(403), the `canBeRated` guard (400), `overall =
Math.round((food + delivery) / 2)`, the rating assignment, save, and
`store.updateRating(overall)`. The route's express-validator chain
is never consulted (`validationResult` is not called in this
handler); out-of-range ratings are instead rejected by the mongoose
`min`/`max` validators at `save()`, a 500 that leaves order and
store unchanged. -/
def overallOf (food delivery : ℤ) : ℤ :=
  jsRound (((food : ℚ) + (delivery : ℚ)) / 2)

def rateOrder (o : OrderDoc) (store : Store) (userId : ℕ)
    (food delivery : ℤ) (comment : Option String) (now : ℕ) : RateResult :=
  if o.customer ≠ userId then
    { code := 403, order := o, store := store }
  else if o.canBeRated = false then
    { code := 400, order := o, store := store }
  else if ¬ (1 ≤ food ∧ food ≤ 5 ∧ 1 ≤ delivery ∧ delivery ≤ 5 ∧
          1 ≤ overallOf food delivery ∧ overallOf food delivery ≤ 5) then
    { code := 500, order := o, store := store }
  else
    let o' :=
      { o with rating :=
          { food := some food, delivery := some delivery,
            overall := some (overallOf food delivery), comment := comment,
            ratedAt := some now } }
    { code := 200, order := o',
      store := store.updateRating ((overallOf food delivery : ℤ) : ℚ) }

/-- One entry of `customizations` in `cartItemSchema`
(`models/Cart.js`). -/
structure Customization where
  kname : String
  opts : List String
  price : ℚ
deriving DecidableEq

/-- One entry of `addons` in `cartItemSchema` (`models/Cart.js`). -/
structure Addon where
  aname : String
  price : ℚ
  quantity : ℤ
deriving DecidableEq

/-- A cart item subdocument (`cartItemSchema` in `models/Cart.js`).
`itemId` is the mongoose subdocument `_id` used by `items.id()` and
`items.pull()`. -/
structure CartItem where
  itemId : ℕ
  product : ℕ
  quantity : ℤ
  customizations : List Customization
  addons : List Addon
  price : ℚ
  totalPrice : ℚ
deriving DecidableEq

/-- `Cart.appliedCoupon` from `models/Cart.js`. -/
structure AppliedCoupon where
  code : String
  discountAmount : ℚ
  couponId : ℕ
deriving DecidableEq

/-- The fields of a `Cart` document involved in the totals hook and
the cart methods (`models/Cart.js`). -/
structure Cart where
  items : List CartItem
  subtotal : ℚ
  tax : ℚ
  deliveryFee : ℚ
  serviceFee : ℚ
  discount : ℚ
  total : ℚ
  appliedCoupon : Option AppliedCoupon
deriving DecidableEq

/-- Cart tax from the pre-save hook:
`Math.round(this.subtotal * 0.1 * 100) / 100`. -/
def cartTax (subtotal : ℚ) : ℚ := round2 (subtotal * (1/10))

/-- Cart service fee from the pre-save hook:
`Math.round(this.subtotal * 0.02 * 100) / 100`. -/
def cartServiceFee (subtotal : ℚ) : ℚ := round2 (subtotal * (2/100))

/-- The `cartSchema` pre-save totals hook (`models/Cart.js`):
subtotal as the sum of item `totalPrice`, 10% tax and 2% service fee
each rounded to cents, and the rounded total
`subtotal + tax + deliveryFee + serviceFee - discount` (no clamping
at zero). Every cart method ends in `save()`, which runs this
hook. -/
def Cart.preSave (c : Cart) : Cart :=
  let subtotal := (c.items.map (fun it => it.totalPrice)).sum
  let tax := cartTax subtotal
  let serviceFee := cartServiceFee subtotal
  let total := round2 (subtotal + tax + c.deliveryFee + serviceFee - c.discount)
  { c with subtotal := subtotal, tax := tax,
           serviceFee := serviceFee, total := total }

/-- `Cart.addItem(productData)` from `models/Cart.js`: find an
existing item with the same product, customizations and addons
(JSON.stringify equality, i.e. structural equality of the arrays);
if found, bump its quantity and recompute its `totalPrice` from its
own stored `price`, otherwise push the new item. Then save. -/
def Cart.addItem (c : Cart) (productData : CartItem) : Cart :=
  Cart.preSave <|
    match c.items.findIdx? (fun it =>
        it.product == productData.product &&
        it.customizations == productData.customizations &&
        it.addons == productData.addons) with
    | some i =>
      match c.items[i]? with
      | some it =>
        let it' := { it with quantity := it.quantity + productData.quantity }
        { c with items :=
            c.items.set i { it' with totalPrice := it'.price * (it'.quantity : ℚ) } }
      | none => c
    | none => { c with items := c.items ++ [productData] }

/-- `Cart.updateItemQuantity(itemId, quantity)` from
`models/Cart.js`: `none` models the thrown "Item not found in cart"
(no save happens); a quantity ≤ 0 pulls the item, otherwise the
item's quantity and `totalPrice` are updated. Then save. -/
def Cart.updateItemQuantity (c : Cart) (itemId : ℕ) (quantity : ℤ) :
    Option Cart :=
  match c.items.find? (fun it => it.itemId == itemId) with
  | none => none
  | some _ =>
    some <| Cart.preSave <|
      if quantity ≤ 0 then
        { c with items := c.items.filter (fun it => it.itemId != itemId) }
      else
        { c with items := c.items.map (fun it =>
            if it.itemId == itemId then
              { it with quantity := quantity,
                        totalPrice := it.price * (quantity : ℚ) }
            else it) }

/-- `Cart.removeItem(itemId)` from `models/Cart.js`. -/
def Cart.removeItem (c : Cart) (itemId : ℕ) : Cart :=
  Cart.preSave { c with items := c.items.filter (fun it => it.itemId != itemId) }

/-- `Cart.clearCart()` from `models/Cart.js`. -/
def Cart.clearCart (c : Cart) : Cart :=
  Cart.preSave { c with items := [], appliedCoupon := none, discount := 0 }

/-- `Cart.applyCoupon(coupon, discountAmount)` from
`models/Cart.js`. -/
def Cart.applyCoupon (c : Cart) (coupon : CouponDoc)
    (discountAmount : ℚ) : Cart :=
  let ac : AppliedCoupon :=
    { code := coupon.code, discountAmount := discountAmount,
      couponId := coupon.cid }
  Cart.preSave { c with appliedCoupon := some ac, discount := discountAmount }

/-- `Cart.removeCoupon()` from `models/Cart.js`. -/
def Cart.removeCoupon (c : Cart) : Cart :=
  Cart.preSave { c with appliedCoupon := none, discount := 0 }

/-- The totals invariant the cart's pre-save hook establishes. -/
def cartInv (c : Cart) : Prop :=
  c.subtotal = (c.items.map (fun it => it.totalPrice)).sum ∧
  c.tax = round2 (c.subtotal * (1/10)) ∧
  c.serviceFee = round2 (c.subtotal * (2/100)) ∧
  c.total = round2 (c.subtotal + c.tax + c.deliveryFee + c.serviceFee - c.discount)

instance (c : Cart) : Decidable (cartInv c) := by
  unfold cartInv; infer_instance

/-! ## Shared lemmas -/

/-- The per-item charge of the order-pricing spec: the resolved
product's `finalPrice` plus the matched option-choice prices, times
the requested quantity (0 if the product does not resolve; on every
successful creation each product resolves). -/
def specItemTotal (db : List Product) (it : ReqItem) : ℚ :=
  match findProduct db it.productId with
  | some p => (p.finalPrice + optionsPrice p it.options) * it.quantity
  | none => 0

theorem processItems_subtotal (db : List Product) (sid : ℕ) :
    ∀ its s os, processItems db sid its = Except.ok (s, os) →
      s = (its.map (specItemTotal db)).sum := by
  intro its
  induction its with
  | nil =>
    intro s os h
    simp only [processItems, Except.ok.injEq, Prod.mk.injEq] at h
    simp [← h.1]
  | cons it rest ih =>
    intro s os h
    cases hfp : findProduct db it.productId with
    | none => simp [processItems, hfp] at h
    | some p =>
      simp only [processItems, hfp] at h
      split at h
      · simp at h
      · split at h
        · simp at h
        · cases hrec : processItems db sid rest with
          | error e => simp [hrec] at h
          | ok pr =>
            obtain ⟨s', os'⟩ := pr
            simp only [hrec, Except.ok.injEq, Prod.mk.injEq] at h
            rw [← h.1, ih s' os' hrec]
            simp [specItemTotal, hfp]

/-! ## C1 -/

/-- C1: for every successful order creation (POST /api/orders) with
store `store`, items `req.items` and optional coupon, the stored
pricing satisfies: subtotal is the sum over the items of
(finalPrice + matched option-choice prices) · quantity; deliveryFee
is the store's `deliveryInfo.deliveryFee`; serviceFee is 5% and tax
10% of the subtotal; and the total is
`max 0 (subtotal + deliveryFee + serviceFee + tax - discount)`,
hence never negative. -/
theorem order_pricing_formula (w : World) (store : Store) (userId : ℕ)
    (req : OrderReq) (dist : ℚ) (o : OrderDoc) (w' : World)
    (hs : w.store = some store)
    (h : createOrder w userId req dist = Except.ok (o, w')) :
    o.pricing.subtotal = (req.items.map (specItemTotal w.products)).sum ∧
    o.pricing.deliveryFee = store.deliveryFee ∧
    o.pricing.serviceFee = (5/100) * o.pricing.subtotal ∧
    o.pricing.tax = (1/10) * o.pricing.subtotal ∧
    o.pricing.total =
      max 0 (o.pricing.subtotal + o.pricing.deliveryFee +
             o.pricing.serviceFee + o.pricing.tax - o.pricing.discount) ∧
    0 ≤ o.pricing.total := by
  simp only [createOrder, hs] at h
  split at h
  · simp at h
  · split at h
    · simp at h
    · split at h
      · simp at h
      · cases hpi : processItems w.products req.storeId req.items with
        | error e => rw [hpi] at h; simp at h
        | ok pr =>
          obtain ⟨subtotal, orderItems⟩ := pr
          rw [hpi] at h
          simp only [Except.ok.injEq, Prod.mk.injEq] at h
          obtain ⟨ho, _⟩ := h
          subst ho
          refine ⟨processItems_subtotal _ _ _ _ _ hpi, rfl, ?_, ?_, rfl, ?_⟩
          · simp [orderServiceFee]; ring
          · simp [orderTax]; ring
          · exact le_max_left 0 _

/-- A concrete product used by the witnesses. -/
def sampleProduct : Product :=
  { pid := 1, storeId := 1, pname := "Empanada", price := 10,
    finalPrice := 10, isAvailable := true, stock := some 10,
    totalOrders := 0, options := [] }

/-- A concrete store used by the witnesses. -/
def sampleStore : Store :=
  { owner := 5, isActive := true, deliveryRadius := 5, deliveryFee := 5/2,
    ratingAverage := 0, ratingCount := 0, totalOrders := 0, totalRevenue := 0 }

/-- A concrete `Coupon` document (code FIRST10, never used yet) used
by the witnesses. -/
def sampleCoupon : CouponDoc :=
  { cid := 1, code := "FIRST10", discountType := .percentage,
    discountValue := 10, maxDiscountAmount := none, usageCount := 0,
    usedBy := [] }

/-- A concrete database state used by the witnesses. -/
def sampleWorld : World :=
  { products := [sampleProduct], coupons := [sampleCoupon],
    store := some sampleStore, userLoyaltyPoints := 0 }

/-- A concrete POST /api/orders request (2 units of product 1,
coupon FIRST10) used by the witnesses. -/
def sampleReq : OrderReq :=
  { storeId := 1,
    items := [{ productId := 1, quantity := 2, options := [] }],
    paymentMethod := .cash, couponCode := some "FIRST10" }

/-- The order `createOrder sampleWorld 7 sampleReq 1` creates. -/
def sampleOrder : OrderDoc :=
  { customer := 7, storeId := 1,
    items := [{ product := 1, iname := "Empanada", price := 10,
                quantity := 2, options := [] }],
    status := .pending, paymentMethod := .cash, paymentStatus := .pend,
    pricing := { subtotal := 20, deliveryFee := 5/2, serviceFee := 1,
                 tax := 2, discount := 2, total := 47/2 },
    coupon := some { code := "FIRST10", ctype := .percentage, discount := 10 },
    timing := { estimatedPreparation := 20, estimatedDelivery := 23,
                confirmedAt := none, preparedAt := none,
                pickedUpAt := none, deliveredAt := none },
    rating := { food := none, delivery := none, overall := none,
                comment := none, ratedAt := none },
    cancellationReason := none, loyaltyPointsEarned := 0 }

/-- The database state after `createOrder sampleWorld 7 sampleReq 1`:
stock decremented, store counters bumped, loyalty points added, and
the coupon collection untouched. -/
def sampleWorldAfter : World :=
  { products := [{ sampleProduct with stock := some 8, totalOrders := 2 }],
    coupons := [sampleCoupon],
    store := some { sampleStore with totalOrders := 1, totalRevenue := 47/2 },
    userLoyaltyPoints := 2 }

/-- Witness for C1 at the concrete request `sampleReq`. -/
theorem order_pricing_formula_witness :
    sampleOrder.pricing.subtotal =
      (sampleReq.items.map (specItemTotal sampleWorld.products)).sum ∧
    sampleOrder.pricing.deliveryFee = sampleStore.deliveryFee ∧
    sampleOrder.pricing.serviceFee = (5/100) * sampleOrder.pricing.subtotal ∧
    sampleOrder.pricing.tax = (1/10) * sampleOrder.pricing.subtotal ∧
    sampleOrder.pricing.total =
      max 0 (sampleOrder.pricing.subtotal + sampleOrder.pricing.deliveryFee +
             sampleOrder.pricing.serviceFee + sampleOrder.pricing.tax -
             sampleOrder.pricing.discount) ∧
    0 ≤ sampleOrder.pricing.total :=
  order_pricing_formula sampleWorld sampleStore 7 sampleReq 1
    sampleOrder sampleWorldAfter (by with_unfolding_all rfl)
    (by with_unfolding_all rfl)

theorem jsRound_int_add_half (k : ℤ) : jsRound ((k : ℚ) + 1/2) = k + 1 := by
  unfold jsRound
  have h : ((k : ℚ) + 1/2) + 1/2 = (k : ℚ) + 1 := by ring
  rw [h]
  have h2 : ((k : ℚ) + 1) = ((k + 1 : ℤ) : ℚ) := by push_cast; ring
  rw [h2, Int.floor_intCast]

theorem jsRound_int (k : ℤ) : jsRound (k : ℚ) = k := by
  unfold jsRound
  rw [Int.floor_int_add]
  norm_num

theorem round2_le_of_le_cents {a x : ℚ} {k : ℤ} (ha : a = (k : ℚ)/100)
    (hx : x ≤ a) : round2 x ≤ a := by
  have h1 : x * 100 + 1/2 ≤ (k : ℚ) + 1/2 := by
    have : x * 100 ≤ (k : ℚ) := by
      rw [ha] at hx
      nlinarith
    linarith
  have h2 : jsRound (x * 100) ≤ k := by
    unfold jsRound
    calc ⌊x * 100 + 1/2⌋ ≤ ⌊(k : ℚ) + 1/2⌋ := Int.floor_le_floor h1
    _ = k := by
        rw [show ((k:ℚ) + 1/2) = (k:ℚ) + (1/2 : ℚ) by ring, Int.floor_int_add]
        norm_num
  rw [round2, ha]
  have h3 : ((jsRound (x * 100) : ℤ) : ℚ) ≤ (k : ℚ) := by exact_mod_cast h2
  linarith

theorem round2_cents_fixed (k : ℤ) : round2 ((k : ℚ)/100) = (k : ℚ)/100 := by
  unfold round2
  have h : (k : ℚ)/100 * 100 = (k : ℚ) := by
    field_simp
  rw [h, jsRound_int]

/-! ## C7 -/

/-- A concrete free-delivery coupon. -/
def freeDeliveryCoupon : CouponDoc :=
  { cid := 2, code := "SHIPFREE", discountType := .freeDelivery,
    discountValue := 0, maxDiscountAmount := none, usageCount := 0,
    usedBy := [] }

/-- A concrete fixed coupon ($5 off). -/
def fixedCoupon : CouponDoc :=
  { cid := 3, code := "SAVE5", discountType := .fixed, discountValue := 5,
    maxDiscountAmount := none, usageCount := 0, usedBy := [] }

/-- A concrete 50% coupon capped at $3. -/
def cappedCoupon : CouponDoc :=
  { cid := 4, code := "HALF", discountType := .percentage,
    discountValue := 50, maxDiscountAmount := some 3, usageCount := 0,
    usedBy := [] }

/-- A concrete 10% coupon whose `maxDiscountAmount` is set to 0 —
falsy in JS, so the cap guard
`this.maxDiscountAmount && discount > this.maxDiscountAmount`
never fires. -/
def zeroCapCoupon : CouponDoc :=
  { cid := 5, code := "ZEROCAP", discountType := .percentage,
    discountValue := 10, maxDiscountAmount := some 0, usageCount := 0,
    usedBy := [] }

/-- Counterexample to C7 as stated, at three explicit inputs.
(1) freeDelivery with deliveryFee 0.125: the result is 0.13
(`Math.round(12.5)/100`), not "exactly the delivery fee".
(2) percentage with `maxDiscountAmount` set to 0 at orderAmount 100:
the result is the uncapped 10, not the claimed cap to 0, because 0
is falsy in the JS guard. (3) fixed (discountValue 5) at the
non-cent orderAmount 0.006: the result is 0.01
(`Math.round(0.6)/100`), which exceeds the order amount, against
"hence never more than the order amount". -/
theorem calculateDiscount_not_as_claimed :
    (freeDeliveryCoupon.calculateDiscount 10 (1/8) = 13/100 ∧
      (13/100 : ℚ) ≠ 1/8) ∧
    (zeroCapCoupon.maxDiscountAmount = some 0 ∧
      zeroCapCoupon.calculateDiscount 100 0 = 10 ∧ (10 : ℚ) ≠ 0) ∧
    (fixedCoupon.calculateDiscount (3/500) 0 = 1/100 ∧
      ¬ (1/100 : ℚ) ≤ 3/500) := by
  refine ⟨⟨?_, ?_⟩, ⟨rfl, ?_, ?_⟩, ⟨?_, ?_⟩⟩
  · with_unfolding_all rfl
  · with_unfolding_all decide
  · with_unfolding_all rfl
  · with_unfolding_all decide
  · with_unfolding_all rfl
  · with_unfolding_all decide

/-- C7 (amended): `Coupon.calculateDiscount` computes, rounded
half-up to 2 decimals: for "percentage", `orderAmount *
discountValue / 100` capped at `maxDiscountAmount` whenever that cap
is set and nonzero (a cap of `null` or `0` is treated as unset, by
JS truthiness); for "fixed", `min(discountValue, orderAmount)`,
which never exceeds the order amount whenever the order amount is a
whole number of cents; for "freeDelivery", the delivery fee rounded
to 2 decimals. -/
theorem calculateDiscount_rules (c : CouponDoc) (a f : ℚ) :
    (∀ m : ℚ, c.discountType = .percentage → c.maxDiscountAmount = some m →
      m ≠ 0 →
      c.calculateDiscount a f = round2 (min (a * c.discountValue / 100) m)) ∧
    (c.discountType = .percentage → c.maxDiscountAmount = none →
      c.calculateDiscount a f = round2 (a * c.discountValue / 100)) ∧
    (c.discountType = .percentage → c.maxDiscountAmount = some 0 →
      c.calculateDiscount a f = round2 (a * c.discountValue / 100)) ∧
    (c.discountType = .fixed →
      c.calculateDiscount a f = round2 (min c.discountValue a)) ∧
    (∀ k : ℤ, c.discountType = .fixed → a = (k : ℚ)/100 →
      c.calculateDiscount a f ≤ a) ∧
    (c.discountType = .freeDelivery → c.calculateDiscount a f = round2 f) := by
  refine ⟨?_, ?_, ?_, ?_, ?_, ?_⟩
  · intro m ht hm hm0
    simp only [CouponDoc.calculateDiscount, ht, hm]
    rcases lt_or_le m (a * c.discountValue / 100) with hlt | hle
    · rw [if_pos ⟨hm0, hlt⟩, min_eq_right (le_of_lt hlt)]
    · rw [if_neg (fun hc => absurd hc.2 (not_lt.mpr hle)),
          min_eq_left hle]
  · intro ht hm
    simp only [CouponDoc.calculateDiscount, ht, hm]
  · intro ht hm
    simp only [CouponDoc.calculateDiscount, ht, hm]
    rw [if_neg (fun hc => hc.1 rfl)]
  · intro ht
    simp only [CouponDoc.calculateDiscount, ht]
  · intro k ht ha
    have h4 : c.calculateDiscount a f = round2 (min c.discountValue a) := by
      simp only [CouponDoc.calculateDiscount, ht]
    rw [h4]
    exact round2_le_of_le_cents ha (min_le_right _ _)
  · intro ht
    simp only [CouponDoc.calculateDiscount, ht]

/-- Witness for C7 (amended) at concrete coupons: the capped
percentage case at order amount 10 (raw 5, cap 3), the uncapped
percentage case at order amount 20, the fixed case at the
whole-cent order amount 2, and the free-delivery case at fee
0.125. -/
theorem calculateDiscount_rules_witness :
    cappedCoupon.calculateDiscount 10 0 =
      round2 (min (10 * cappedCoupon.discountValue / 100) 3) ∧
    sampleCoupon.calculateDiscount 20 0 =
      round2 (20 * sampleCoupon.discountValue / 100) ∧
    fixedCoupon.calculateDiscount 2 0 =
      round2 (min fixedCoupon.discountValue 2) ∧
    fixedCoupon.calculateDiscount 2 0 ≤ 2 ∧
    freeDeliveryCoupon.calculateDiscount 10 (1/8) = round2 (1/8) :=
  ⟨(calculateDiscount_rules cappedCoupon 10 0).1 3 rfl rfl (by norm_num),
   (calculateDiscount_rules sampleCoupon 20 0).2.1 rfl rfl,
   (calculateDiscount_rules fixedCoupon 2 0).2.2.2.1 rfl,
   (calculateDiscount_rules fixedCoupon 2 0).2.2.2.2.1 200 rfl (by norm_num),
   (calculateDiscount_rules freeDeliveryCoupon 10 (1/8)).2.2.2.2.2 rfl⟩

/-! ## C5 -/

/-- C5: ratings stay within 1–5. For integer food and delivery
ratings in 1..5, the overall rating `Math.round((food+delivery)/2)`
computed by POST /api/orders/:id/rate lies in 1..5; and
`Store.updateRating` maps a store whose average is in [1,5] (or
whose count is 0) and a new rating in [1,5] to an average still in
[1,5]. -/
theorem rating_bounds (f d : ℤ) (s : Store) (r : ℚ)
    (hf : 1 ≤ f ∧ f ≤ 5) (hd : 1 ≤ d ∧ d ≤ 5)
    (hs : (1 ≤ s.ratingAverage ∧ s.ratingAverage ≤ 5) ∨ s.ratingCount = 0)
    (hr : 1 ≤ r ∧ r ≤ 5) :
    (1 ≤ jsRound (((f : ℚ) + (d : ℚ))/2) ∧
      jsRound (((f : ℚ) + (d : ℚ))/2) ≤ 5) ∧
    (1 ≤ (s.updateRating r).ratingAverage ∧
      (s.updateRating r).ratingAverage ≤ 5) := by
  have hf1 : (1 : ℚ) ≤ (f : ℚ) := by exact_mod_cast hf.1
  have hf5 : (f : ℚ) ≤ 5 := by exact_mod_cast hf.2
  have hd1 : (1 : ℚ) ≤ (d : ℚ) := by exact_mod_cast hd.1
  have hd5 : (d : ℚ) ≤ 5 := by exact_mod_cast hd.2
  constructor
  · constructor
    · rw [jsRound, Int.le_floor]
      push_cast
      linarith
    · rw [jsRound, Int.floor_le_iff]
      push_cast
      linarith
  · rcases hs with havg | hcount
    · have hn : (0 : ℚ) ≤ (s.ratingCount : ℚ) := by positivity
      have hpos : (0 : ℚ) < (s.ratingCount : ℚ) + 1 := by linarith
      simp only [Store.updateRating]
      constructor
      · rw [le_div_iff hpos]
        nlinarith
      · rw [div_le_iff hpos]
        nlinarith
    · simp only [Store.updateRating, hcount]
      push_cast
      constructor
      · rw [le_div_iff (by norm_num : (0:ℚ) < 0 + 1)]
        linarith
      · rw [div_le_iff (by norm_num : (0:ℚ) < 0 + 1)]
        linarith

/-- Witness for C5: food 5, delivery 4 give overall
`Math.round(4.5) = 5`; `sampleStore` (count 0) rated 5 gets
average 5. -/
theorem rating_bounds_witness :
    (1 ≤ jsRound ((((5:ℤ) : ℚ) + ((4:ℤ) : ℚ))/2) ∧
      jsRound ((((5:ℤ) : ℚ) + ((4:ℤ) : ℚ))/2) ≤ 5) ∧
    (1 ≤ (sampleStore.updateRating 5).ratingAverage ∧
      (sampleStore.updateRating 5).ratingAverage ≤ 5) :=
  rating_bounds 5 4 sampleStore 5 (by decide) (by decide)
    (Or.inr (by with_unfolding_all rfl)) (by norm_num)

/-! ## C4 -/

theorem round2_eq_self_iff (x : ℚ) :
    round2 x = x ↔ ∃ k : ℤ, x = (k : ℚ)/100 := by
  constructor
  · intro h
    exact ⟨jsRound (x * 100), h.symm⟩
  · rintro ⟨k, rfl⟩
    exact round2_cents_fixed k

/-- A concrete cart item of price 100, quantity 1. -/
def itemC4 : CartItem :=
  { itemId := 1, product := 1, quantity := 1, customizations := [],
    addons := [], price := 100, totalPrice := 100 }

/-- A concrete cart holding a single line of totalPrice 100, no
delivery fee, no discount. -/
def cartC4 : Cart :=
  { items := [itemC4],
    subtotal := 0, tax := 0, deliveryFee := 0, serviceFee := 0,
    discount := 0, total := 0, appliedCoupon := none }

/-- A store with no delivery fee and a 50-peso product, for the C4
comparison at subtotal 100, fee 0, discount 0. -/
def storeC4 : Store :=
  { owner := 5, isActive := true, deliveryRadius := 5, deliveryFee := 0,
    ratingAverage := 0, ratingCount := 0, totalOrders := 0, totalRevenue := 0 }

/-- Product for the C4 comparison. -/
def productC4 : Product :=
  { pid := 2, storeId := 1, pname := "Pizza", price := 50, finalPrice := 50,
    isAvailable := true, stock := none, totalOrders := 0, options := [] }

/-- World for the C4 comparison. -/
def worldC4 : World :=
  { products := [productC4], coupons := [], store := some storeC4,
    userLoyaltyPoints := 0 }

/-- Request for the C4 comparison: 2 × product 2, no coupon. -/
def reqC4 : OrderReq :=
  { storeId := 1,
    items := [{ productId := 2, quantity := 2, options := [] }],
    paymentMethod := .card, couponCode := none }

/-- Counterexample to C4 as stated: on the same subtotal 100,
delivery fee 0 and discount 0, the order pricing yields
(tax, serviceFee, total) = (10, 5, 115) while the cart pre-save hook
yields (10, 2, 112): the service fees and totals differ. -/
theorem cart_order_pricing_disagree :
    ((createOrder worldC4 7 reqC4 1).toOption.map
        (fun r => (r.1.pricing.subtotal, r.1.pricing.tax,
                   r.1.pricing.serviceFee, r.1.pricing.total))) =
      some (100, 10, 5, 115) ∧
    ((Cart.preSave cartC4).subtotal, (Cart.preSave cartC4).tax,
      (Cart.preSave cartC4).serviceFee, (Cart.preSave cartC4).total) =
      (100, 10, 2, 112) ∧
    ((2 : ℚ), (112 : ℚ)) ≠ ((5 : ℚ), (115 : ℚ)) := by
  refine ⟨?_, ?_, ?_⟩
  · with_unfolding_all rfl
  · with_unfolding_all rfl
  · with_unfolding_all decide

/-- C4 (amended): the cart pre-save totals hook and the POST
/api/orders pricing disagree for the same subtotal, delivery fee and
discount: for every positive subtotal the cart service fee
(2% rounded to cents) is strictly below the order service fee (5%,
unrounded), and the two tax computations agree exactly when 10% of
the subtotal is a whole number of cents; consequently the totals
differ in general (subtotal 100, fee 0, discount 0 gives cart total
112 against order total 115). -/
theorem cart_vs_order_pricing (s : ℚ) :
    (0 < s → cartServiceFee s < orderServiceFee s) ∧
    (cartTax s = orderTax s ↔ ∃ k : ℤ, s * (1/10) = (k : ℚ)/100) := by
  constructor
  · intro hpos
    have hy : s * (2/100) * 100 = 2*s := by ring
    have hfee : cartServiceFee s = ((jsRound (2*s) : ℤ) : ℚ)/100 := by
      rw [cartServiceFee, round2, hy]
    rw [hfee, orderServiceFee]
    rw [div_lt_iff (by norm_num : (0:ℚ) < 100)]
    have hform : s * (5/100) * 100 = 5*s := by ring
    rw [hform]
    rcases le_or_lt s (1/6) with hle | hlt
    · have h0 : jsRound (2*s) ≤ 0 := by
        rw [jsRound, Int.floor_le_iff]
        push_cast
        linarith
      have h0q : ((jsRound (2*s) : ℤ) : ℚ) ≤ 0 := by exact_mod_cast h0
      linarith
    · have hfl : ((jsRound (2*s) : ℤ) : ℚ) ≤ 2*s + 1/2 := by
        rw [jsRound]
        exact le_trans (Int.floor_le _) (le_refl _)
      linarith
  · rw [cartTax, orderTax]
    exact round2_eq_self_iff (s * (1/10))

/-- Witness for C4 (amended) at subtotal 100: the cart service fee 2
is below the order service fee 5, and the taxes agree because
10 = 1000/100 is a whole number of cents. -/
theorem cart_vs_order_pricing_witness :
    cartServiceFee 100 < orderServiceFee 100 ∧
    (cartTax 100 = orderTax 100 ↔ ∃ k : ℤ, (100:ℚ) * (1/10) = (k : ℚ)/100) :=
  ⟨(cart_vs_order_pricing 100).1 (by norm_num),
   (cart_vs_order_pricing 100).2⟩

/-! ## C9 -/

theorem cart_presave_inv (c : Cart) : cartInv (Cart.preSave c) :=
  ⟨rfl, rfl, rfl, rfl⟩

/-- An empty cart document (fresh `getOrCreateCart` result). -/
def emptyCart : Cart :=
  { items := [], subtotal := 0, tax := 0, deliveryFee := 0,
    serviceFee := 0, discount := 0, total := 0, appliedCoupon := none }

/-- C9: after each cart operation the saved cart's totals satisfy
the pre-save invariant (subtotal = Σ item.totalPrice,
tax = round2(0.10·subtotal), serviceFee = round2(0.02·subtotal),
total = round2(subtotal + tax + deliveryFee + serviceFee −
discount)); and the total is not clamped at zero — applying a 5-peso
discount to an empty cart leaves a negative total. -/
theorem cart_ops_invariant :
    (∀ c d, cartInv (Cart.addItem c d)) ∧
    (∀ (c : Cart) (itemId : ℕ) (q : ℤ) (c' : Cart),
      Cart.updateItemQuantity c itemId q = some c' → cartInv c') ∧
    (∀ c itemId, cartInv (Cart.removeItem c itemId)) ∧
    (∀ c, cartInv (Cart.clearCart c)) ∧
    (∀ c k amt, cartInv (Cart.applyCoupon c k amt)) ∧
    (∀ c, cartInv (Cart.removeCoupon c)) ∧
    (Cart.applyCoupon emptyCart sampleCoupon 5).total < 0 := by
  refine ⟨?_, ?_, ?_, ?_, ?_, ?_, ?_⟩
  · intro c d
    exact cart_presave_inv _
  · intro c itemId q c' h
    unfold Cart.updateItemQuantity at h
    cases hf : c.items.find? (fun it => it.itemId == itemId) with
    | none => simp [hf] at h
    | some it =>
      simp only [hf, Option.some.injEq] at h
      rw [← h]
      exact cart_presave_inv _
  · intro c itemId
    exact cart_presave_inv _
  · intro c
    exact cart_presave_inv _
  · intro c k amt
    exact cart_presave_inv _
  · intro c
    exact cart_presave_inv _
  · show (Cart.applyCoupon emptyCart sampleCoupon 5).total < 0
    have h : (Cart.applyCoupon emptyCart sampleCoupon 5).total = -5 := by
      with_unfolding_all rfl
    rw [h]
    norm_num

/-- The cart `cartC4.updateItemQuantity 1 3` saves: quantity 3,
line total 300, totals recomputed by the hook. -/
def cartC4upd : Cart :=
  { items := [{ itemC4 with quantity := 3, totalPrice := 300 }],
    subtotal := 300, tax := 30, deliveryFee := 0, serviceFee := 6,
    discount := 0, total := 336, appliedCoupon := none }

/-- Witness for C9 at concrete carts, one instance per operation;
the `updateItemQuantity` hypothesis is discharged at `cartC4`. -/
theorem cart_ops_invariant_witness :
    cartInv (Cart.addItem emptyCart itemC4) ∧
    cartInv cartC4upd ∧
    cartInv (Cart.removeItem cartC4 1) ∧
    cartInv (Cart.clearCart cartC4) ∧
    cartInv (Cart.applyCoupon cartC4 sampleCoupon 2) ∧
    cartInv (Cart.removeCoupon cartC4) ∧
    (Cart.applyCoupon emptyCart sampleCoupon 5).total < 0 :=
  ⟨cart_ops_invariant.1 emptyCart itemC4,
   cart_ops_invariant.2.1 cartC4 1 3 cartC4upd (by with_unfolding_all rfl),
   cart_ops_invariant.2.2.1 cartC4 1,
   cart_ops_invariant.2.2.2.1 cartC4,
   cart_ops_invariant.2.2.2.2.1 cartC4 sampleCoupon 2,
   cart_ops_invariant.2.2.2.2.2.1 cartC4,
   cart_ops_invariant.2.2.2.2.2.2⟩

/-! ## C8 -/

theorem canBeCancelled_iff (o : OrderDoc) :
    o.canBeCancelled = true ↔
      (o.status = .pending ∨ o.status = .confirmed) := by
  simp [OrderDoc.canBeCancelled]

/-- C8: for an authorized requester (the order's customer or an
admin) on a found order, PUT /api/orders/:id/cancel succeeds (200)
exactly when the order's status is pending or confirmed; in every
other status it responds 400 and returns the order document and the
product collection unchanged. -/
theorem cancel_guard (o : OrderDoc) (db : List Product) (userId : ℕ)
    (role : Role) (reason : Option String)
    (hauth : o.customer = userId ∨ role = .admin) :
    ((cancelOrder o db userId role reason).code = 200 ↔
      (o.status = .pending ∨ o.status = .confirmed)) ∧
    (¬ (o.status = .pending ∨ o.status = .confirmed) →
      (cancelOrder o db userId role reason).code = 400 ∧
      (cancelOrder o db userId role reason).order = o ∧
      (cancelOrder o db userId role reason).products = db) := by
  unfold cancelOrder
  rw [if_neg (by tauto)]
  by_cases hc : o.canBeCancelled = true
  · rw [if_neg (by simp [hc])]
    refine ⟨iff_of_true rfl ((canBeCancelled_iff o).mp hc), ?_⟩
    intro hnot
    exact absurd ((canBeCancelled_iff o).mp hc) hnot
  · rw [Bool.not_eq_true] at hc
    rw [if_pos hc]
    refine ⟨?_, fun _ => ⟨rfl, rfl, rfl⟩⟩
    refine iff_of_false (by norm_num) ?_
    intro hpc
    rw [(canBeCancelled_iff o).mpr hpc] at hc
    simp at hc

/-- Witness for C8: the fresh `sampleOrder` (pending, customer 7)
cancelled by its customer. -/
theorem cancel_guard_witness :
    ((cancelOrder sampleOrder [sampleProduct] 7 .client none).code = 200 ↔
      (sampleOrder.status = .pending ∨ sampleOrder.status = .confirmed)) ∧
    (¬ (sampleOrder.status = .pending ∨ sampleOrder.status = .confirmed) →
      (cancelOrder sampleOrder [sampleProduct] 7 .client none).code = 400 ∧
      (cancelOrder sampleOrder [sampleProduct] 7 .client none).order =
        sampleOrder ∧
      (cancelOrder sampleOrder [sampleProduct] 7 .client none).products =
        [sampleProduct]) :=
  cancel_guard sampleOrder [sampleProduct] 7 .client none
    (Or.inl (by with_unfolding_all rfl))

/-! ## C10 -/

theorem canBeRated_iff (o : OrderDoc) :
    o.canBeRated = true ↔
      (o.status = .delivered ∧ truthyInt o.rating.overall = false) := by
  simp [OrderDoc.canBeRated]

/-- C10: an order can be rated at most once. A successful rate
(200) by the order's customer happens only when the order is
delivered and has no overall rating yet; and after a success, any
further rating attempt on the resulting order answers 400 and
returns the order's rating fields and the store's rating aggregate
unchanged. -/
theorem rate_at_most_once (o : OrderDoc) (store : Store) (f d : ℤ)
    (comment : Option String) (now : ℕ) (o' : OrderDoc) (s' : Store)
    (h : rateOrder o store o.customer f d comment now =
      { code := 200, order := o', store := s' }) :
    (o.status = .delivered ∧ truthyInt o.rating.overall = false) ∧
    (∀ (f' d' : ℤ) (comment' : Option String) (now' : ℕ),
      rateOrder o' s' o'.customer f' d' comment' now' =
        { code := 400, order := o', store := s' }) := by
  unfold rateOrder at h
  rw [if_neg (fun hne => hne rfl)] at h
  by_cases hc : o.canBeRated = true
  · rw [if_neg (by simp [hc])] at h
    split at h
    · simp at h
    · simp only [RateResult.mk.injEq] at h
      obtain ⟨-, ho, hs⟩ := h
      refine ⟨(canBeRated_iff o).mp hc, ?_⟩
      intro f' d' comment' now'
      have h1 : 1 ≤ overallOf f d := by
        rename_i hval
        rw [not_not] at hval
        exact hval.2.2.2.2.1
      have hov : truthyInt o'.rating.overall = true := by
        rw [← ho]
        simp only [truthyInt, bne_iff_ne, ne_eq]
        omega
      have hcr : o'.canBeRated = false := by
        simp [OrderDoc.canBeRated, hov]
      unfold rateOrder
      rw [if_neg (fun hne => hne rfl), if_pos hcr]
  · rw [Bool.not_eq_true] at hc
    rw [if_pos hc] at h
    simp at h

/-- The `sampleOrder` delivered (ready to rate). -/
def deliveredOrder : OrderDoc := { sampleOrder with status := .delivered }

/-- `deliveredOrder` after its customer rates food 5, delivery 4
(overall `Math.round(4.5) = 5`). -/
def ratedOrder : OrderDoc :=
  { deliveredOrder with rating :=
      { food := some 5, delivery := some 4, overall := some 5,
        comment := none, ratedAt := some 100 } }

/-- `sampleStore` after absorbing the overall rating 5. -/
def ratedStore : Store :=
  { sampleStore with ratingCount := 1, ratingAverage := 5 }

/-- Witness for C10: rating `deliveredOrder` succeeds once, and the
immediate second attempt (food 3, delivery 3) is refused with 400
leaving `ratedOrder` and `ratedStore` as they are. -/
theorem rate_at_most_once_witness :
    (deliveredOrder.status = .delivered ∧
      truthyInt deliveredOrder.rating.overall = false) ∧
    rateOrder ratedOrder ratedStore ratedOrder.customer 3 3 none 200 =
      { code := 400, order := ratedOrder, store := ratedStore } :=
  have happ := rate_at_most_once deliveredOrder sampleStore 5 4 none 100
    ratedOrder ratedStore (by with_unfolding_all rfl)
  ⟨happ.1, happ.2 3 3 none 200⟩

/-! ## C2 -/

theorem updateStatus_status (o : OrderDoc) (now : ℕ) (s : OrderStatus) :
    (o.updateStatus now s).status = s := by
  cases s <;> rfl

/-- Counterexample to C2 as stated: on a delivered order, an
admin's request for status "confirmed" is accepted (200) and moves
the status back to confirmed — neither the immediate successor of
delivered nor a side exit, so the update can go backwards along the
chain. -/
theorem status_update_goes_backwards :
    deliveredOrder.status = OrderStatus.delivered ∧
    (updateStatusHandler deliveredOrder 5 9 .admin .confirmed 100).1 = 200 ∧
    (updateStatusHandler deliveredOrder 5 9 .admin .confirmed 100).2.status =
      OrderStatus.confirmed ∧
    ¬ specChainStep OrderStatus.delivered OrderStatus.confirmed := by
  refine ⟨rfl, ?_, ?_, by decide⟩
  · with_unfolding_all rfl
  · with_unfolding_all rfl

/-- C2 (amended): an accepted status-update request
(PUT /api/orders/:id/status by an admin, the store owner, or any
delivery driver) sets the order's status to exactly the requested
enum value, whatever the current status: `Order.updateStatus`
assigns unconditionally, and the route's `isIn` validator chain is
never consulted (`validationResult` is not called), so every schema
enum value — `refunded` and `pending` included — is accepted from
every state, and no chain ordering is enforced. -/
theorem status_update_unrestricted (o : OrderDoc) (storeOwner userId : ℕ)
    (role : Role) (s : OrderStatus) (now : ℕ)
    (hauth : role = .admin ∨ storeOwner = userId ∨ role = .delivery_driver) :
    updateStatusHandler o storeOwner userId role s now =
      (200, o.updateStatus now s) ∧
    (o.updateStatus now s).status = s := by
  constructor
  · unfold updateStatusHandler
    rw [if_neg (by tauto)]
  · exact updateStatus_status o now s

/-- Witness for C2 (amended): the backward move delivered →
confirmed by an admin. -/
theorem status_update_unrestricted_witness :
    updateStatusHandler deliveredOrder 5 9 .admin .confirmed 100 =
      (200, deliveredOrder.updateStatus 100 .confirmed) ∧
    (deliveredOrder.updateStatus 100 .confirmed).status = .confirmed :=
  status_update_unrestricted deliveredOrder 5 9 .admin .confirmed 100
    (Or.inl rfl)

/-! ## C3 -/

theorem createOrder_ok_parts (w : World) (uid : ℕ) (req : OrderReq)
    (dist : ℚ) (o : OrderDoc) (w' : World)
    (h : createOrder w uid req dist = Except.ok (o, w')) :
    o.status = .pending ∧ o.customer = uid ∧
    w'.products = req.items.foldl decStockStep w.products ∧
    w'.coupons = w.coupons ∧
    ∃ s, processItems w.products req.storeId req.items =
      Except.ok (s, o.items) := by
  cases hws : w.store with
  | none =>
    simp only [createOrder, hws] at h
    split at h <;> simp at h
  | some store =>
    simp only [createOrder, hws] at h
    split at h
    · simp at h
    · split at h
      · simp at h
      · split at h
        · simp at h
        · cases hpi : processItems w.products req.storeId req.items with
          | error e => simp [hpi] at h
          | ok pr =>
            obtain ⟨s, os⟩ := pr
            simp only [hpi, Except.ok.injEq, Prod.mk.injEq] at h
            obtain ⟨ho, hw⟩ := h
            subst ho
            subst hw
            exact ⟨rfl, rfl, rfl, rfl, s, rfl⟩

/-- Counterexample to C3 as stated: the concrete creation
`createOrder sampleWorld 7 sampleReq 1` succeeds with coupon
FIRST10 applied (discount 2 on subtotal 20), yet the FIRST10
`Coupon` document still has `usageCount = 0` and an empty `usedBy`
afterwards — the handler's hardcoded coupon table bypasses the
`Coupon` collection entirely. -/
theorem coupon_usage_not_incremented :
    createOrder sampleWorld 7 sampleReq 1 =
      Except.ok (sampleOrder, sampleWorldAfter) ∧
    sampleOrder.pricing.discount = 2 ∧
    sampleOrder.coupon =
      some { code := "FIRST10", ctype := .percentage, discount := 10 } ∧
    sampleWorldAfter.coupons = sampleWorld.coupons ∧
    (sampleWorldAfter.coupons.map fun c => c.usageCount) = [0] ∧
    (sampleWorldAfter.coupons.map fun c => c.usedBy) = [[]] := by
  refine ⟨?_, ?_, ?_, rfl, ?_, ?_⟩ <;> with_unfolding_all rfl

/-- C3 (amended): order creation never updates any `Coupon`
document — the POST /api/orders handler resolves `couponCode`
against its hardcoded three-entry table (FIRST10 10%, SAVE5 $5,
WELCOME20 20%) and leaves the coupon collection unchanged on every
successful creation. `Coupon.useCoupon`, which does increment
`usageCount` by 1 and append a `usedBy` entry, is never invoked by
this handler (nor anywhere else in the codebase). -/
theorem createOrder_coupons_untouched (w : World) (uid : ℕ)
    (req : OrderReq) (dist : ℚ) (o : OrderDoc) (w' : World)
    (h : createOrder w uid req dist = Except.ok (o, w')) :
    w'.coupons = w.coupons ∧
    (∀ (c : CouponDoc) (u oid now : ℕ) (amt : ℚ),
      (c.useCoupon u oid now amt).usageCount = c.usageCount + 1 ∧
      (c.useCoupon u oid now amt).usedBy = c.usedBy ++
        [{ user := u, order := oid, usedAt := now,
           discountApplied := amt }]) :=
  ⟨(createOrder_ok_parts w uid req dist o w' h).2.2.2.1,
   fun _ _ _ _ _ => ⟨rfl, rfl⟩⟩

/-- Witness for C3 (amended) at the concrete creation
`createOrder sampleWorld 7 sampleReq 1` and at `sampleCoupon`. -/
theorem createOrder_coupons_untouched_witness :
    sampleWorldAfter.coupons = sampleWorld.coupons ∧
    (sampleCoupon.useCoupon 7 1 100 2).usageCount =
      sampleCoupon.usageCount + 1 ∧
    (sampleCoupon.useCoupon 7 1 100 2).usedBy = sampleCoupon.usedBy ++
      [{ user := 7, order := 1, usedAt := 100, discountApplied := 2 }] :=
  have happ := createOrder_coupons_untouched sampleWorld 7 sampleReq 1
    sampleOrder sampleWorldAfter (by with_unfolding_all rfl)
  ⟨happ.1, (happ.2 sampleCoupon 7 1 100 2).1, (happ.2 sampleCoupon 7 1 100 2).2⟩

/-! ## C6 -/

/-- The (product id, quantity) content of a request item. -/
def projReq (it : ReqItem) : ℕ × ℕ := (it.productId, it.quantity)

/-- The (product id, quantity) content of an order item. -/
def projOrd (oi : OrderItem) : ℕ × ℕ := (oi.product, oi.quantity)

/-- Total quantity a list of (product id, quantity) pairs carries
for a given product id. -/
def pairMatchSum (pid : ℕ) (l : List (ℕ × ℕ)) : ℤ :=
  (l.map (fun pr => if pid = pr.1 then (pr.2 : ℤ) else 0)).sum

theorem decItem_pid (it : ReqItem) (p : Product) :
    (decItem it p).pid = p.pid := by
  unfold decItem; split <;> rfl

theorem incItem_pid (oi : OrderItem) (p : Product) :
    (incItem oi p).pid = p.pid := by
  unfold incItem; split <;> rfl

theorem dec_fold (its : List ReqItem) : ∀ p : Product,
    (its.foldl (fun q it => decItem it q) p).pid = p.pid ∧
    (its.foldl (fun q it => decItem it q) p).stock =
      p.stock.map (fun s => s - pairMatchSum p.pid (its.map projReq)) := by
  induction its with
  | nil =>
    intro p
    refine ⟨rfl, ?_⟩
    simp [pairMatchSum]
  | cons it rest ih =>
    intro p
    constructor
    · show (rest.foldl _ (decItem it p)).pid = p.pid
      rw [(ih (decItem it p)).1, decItem_pid]
    · show (rest.foldl _ (decItem it p)).stock = _
      rw [(ih (decItem it p)).2, decItem_pid]
      by_cases hm : p.pid = it.productId
      · have hsum : pairMatchSum p.pid ((it :: rest).map projReq) =
            (it.quantity : ℤ) + pairMatchSum p.pid (rest.map projReq) := by
          simp [pairMatchSum, projReq, hm]
        simp only [decItem, if_pos hm]
        rw [Option.map_map, hsum]
        congr 1
        funext s
        simp only [Function.comp]
        ring
      · have hsum : pairMatchSum p.pid ((it :: rest).map projReq) =
            pairMatchSum p.pid (rest.map projReq) := by
          simp [pairMatchSum, projReq, hm]
        simp only [decItem, if_neg hm]
        rw [hsum]

theorem inc_fold (os : List OrderItem) : ∀ p : Product,
    (os.foldl (fun q oi => incItem oi q) p).pid = p.pid ∧
    (os.foldl (fun q oi => incItem oi q) p).stock =
      p.stock.map (fun s => s + pairMatchSum p.pid (os.map projOrd)) := by
  induction os with
  | nil =>
    intro p
    refine ⟨rfl, ?_⟩
    simp [pairMatchSum]
  | cons oi rest ih =>
    intro p
    constructor
    · show (rest.foldl _ (incItem oi p)).pid = p.pid
      rw [(ih (incItem oi p)).1, incItem_pid]
    · show (rest.foldl _ (incItem oi p)).stock = _
      rw [(ih (incItem oi p)).2, incItem_pid]
      by_cases hm : p.pid = oi.product
      · have hsum : pairMatchSum p.pid ((oi :: rest).map projOrd) =
            (oi.quantity : ℤ) + pairMatchSum p.pid (rest.map projOrd) := by
          simp [pairMatchSum, projOrd, hm]
        simp only [incItem, if_pos hm]
        rw [Option.map_map, hsum]
        congr 1
        funext s
        simp only [Function.comp]
        ring
      · have hsum : pairMatchSum p.pid ((oi :: rest).map projOrd) =
            pairMatchSum p.pid (rest.map projOrd) := by
          simp [pairMatchSum, projOrd, hm]
        simp only [incItem, if_neg hm]
        rw [hsum]

theorem foldl_map_comm {α β : Type} (g : β → α → α) (its : List β) :
    ∀ db : List α, its.foldl (fun d it => d.map (g it)) db =
      db.map (fun p => its.foldl (fun q it => g it q) p) := by
  induction its with
  | nil => intro db; simp
  | cons it rest ih =>
    intro db
    show rest.foldl _ (db.map (g it)) = _
    rw [ih (db.map (g it)), List.map_map]
    rfl

theorem processItems_projection (db : List Product) (sid : ℕ) :
    ∀ its s os, processItems db sid its = Except.ok (s, os) →
      os.map projOrd = its.map projReq := by
  intro its
  induction its with
  | nil =>
    intro s os h
    simp only [processItems, Except.ok.injEq, Prod.mk.injEq] at h
    simp [← h.2]
  | cons it rest ih =>
    intro s os h
    cases hfp : findProduct db it.productId with
    | none => simp [processItems, hfp] at h
    | some p =>
      simp only [processItems, hfp] at h
      split at h
      · simp at h
      · split at h
        · simp at h
        · cases hrec : processItems db sid rest with
          | error e => simp [hrec] at h
          | ok pr =>
            obtain ⟨s', os'⟩ := pr
            simp only [hrec, Except.ok.injEq, Prod.mk.injEq] at h
            have hpid : p.pid = it.productId := by
              have hfp' := hfp
              unfold findProduct at hfp'
              simpa using List.find?_some hfp'
            rw [← h.2]
            simp [projOrd, projReq, hpid, ih s' os' hrec]

theorem stock_roundtrip (its : List ReqItem) (os : List OrderItem)
    (db : List Product) (hproj : os.map projOrd = its.map projReq) :
    (os.foldl incStockStep (its.foldl decStockStep db)).map (fun p => p.stock) =
      db.map (fun p => p.stock) := by
  have hdec : its.foldl decStockStep db =
      db.map (fun p => its.foldl (fun q it => decItem it q) p) :=
    foldl_map_comm decItem its db
  have hinc : ∀ db2, os.foldl incStockStep db2 =
      db2.map (fun p => os.foldl (fun q oi => incItem oi q) p) :=
    fun db2 => foldl_map_comm incItem os db2
  rw [hdec, hinc, List.map_map, List.map_map]
  have hpt : ∀ p : Product,
      (os.foldl (fun q oi => incItem oi q)
        (its.foldl (fun q it => decItem it q) p)).stock = p.stock := by
    intro p
    rw [(inc_fold os _).2, (dec_fold its p).1, (dec_fold its p).2, hproj,
        Option.map_map]
    have hid : ((fun s => s + pairMatchSum p.pid (its.map projReq)) ∘
        (fun s => s - pairMatchSum p.pid (its.map projReq))) = id := by
      funext s
      simp
    rw [hid, Option.map_id]
    rfl
  have hfun : (((fun p : Product => p.stock) ∘
      (fun p => os.foldl (fun q oi => incItem oi q) p)) ∘
       (fun p => its.foldl (fun q it => decItem it q) p)) =
      (fun p : Product => p.stock) := funext fun p => hpt p
  rw [hfun]

/-- C6: order creation and cancellation are inverse on stock. For
every successful POST /api/orders, cancelling the created order (its
status is pending, so `canBeCancelled` holds and the customer is
authorized) succeeds with 200, and the per-item stock restores of
the cancel handler undo the per-item stock decrements of the create
handler: every product's stock equals its value before the order was
placed. -/
theorem create_cancel_stock_roundtrip (w : World) (uid : ℕ)
    (req : OrderReq) (dist : ℚ) (o : OrderDoc) (w' : World) (role : Role)
    (reason : Option String)
    (h : createOrder w uid req dist = Except.ok (o, w')) :
    (cancelOrder o w'.products o.customer role reason).code = 200 ∧
    (cancelOrder o w'.products o.customer role reason).products.map
        (fun p => p.stock) =
      w.products.map (fun p => p.stock) := by
  obtain ⟨hst, -, hprod, -, s, hpi⟩ := createOrder_ok_parts w uid req dist o w' h
  have hproj : o.items.map projOrd = req.items.map projReq :=
    processItems_projection _ _ _ _ _ hpi
  have hcanc : o.canBeCancelled = true := (canBeCancelled_iff o).mpr (Or.inl hst)
  unfold cancelOrder
  rw [if_neg (fun hc => hc.1 rfl), if_neg (by simp [hcanc])]
  refine ⟨rfl, ?_⟩
  show (o.items.foldl incStockStep w'.products).map (fun p => p.stock) = _
  rw [hprod]
  exact stock_roundtrip req.items o.items w.products hproj

/-- Witness for C6: cancelling `sampleOrder` right after the
concrete creation restores product 1's stock from 8 to 10. -/
theorem create_cancel_stock_roundtrip_witness :
    (cancelOrder sampleOrder sampleWorldAfter.products
        sampleOrder.customer .client none).code = 200 ∧
    (cancelOrder sampleOrder sampleWorldAfter.products
        sampleOrder.customer .client none).products.map (fun p => p.stock) =
      sampleWorld.products.map (fun p => p.stock) :=
  create_cancel_stock_roundtrip sampleWorld 7 sampleReq 1 sampleOrder
    sampleWorldAfter .client none (by with_unfolding_all rfl)

end Delivery
